import Mathlib

/-!
Shallow embedding of the message-decoding core of the CAI client library
(`cai/client/message_service/decoders.py`): the content-element parser
`parse_elements` and the buddy-message dispatch (`BuddyMessageDecoder.decode`,
`BuddyMessageDecoder.decode_normal_buddy`, `MESSAGE_DECODERS`).

Modelling conventions:

* Protobuf byte-string payloads that the source immediately UTF-8-decodes
  (`elem.text.str.decode("utf-8")`, `poke.vaspoke_name.decode("utf-8")`) are
  modelled as already-decoded `String`s; all claims concern well-formed text.
* Protobuf `HasField` is modelled by `Option` fields on the record structures.
  Reading an unset protobuf submessage field (without a `HasField` guard)
  returns the default instance, so `elems[index].text.str` on a record whose
  `text` field is unset yields the empty byte string; see `Elem.text_get`.
* A Python expression that can raise is modelled in `Option`: `none` stands
  for the raised exception (the only raise reachable in this core is the
  `IndexError` of `elems[index]` when a `small_emoji` record is the final
  element of the sequence).
* The generated protobuf classes (`cai.pb...`) and the element/event model
  classes (`.models`) are part of the repository but outside this core's
  source; they are modelled from the spec where noted.
-/

namespace Cai

/-- Modelled from the spec: the `text` content tag of a `ContentElementRecord`
("UTF-8 byte payload"); the byte payload is represented by its decoded text. -/
structure PlainText where
  str : String
deriving DecidableEq

/-- Modelled from the spec: the `face` content tag ("integer index"). -/
structure FaceMsg where
  index : Nat
deriving DecidableEq

/-- Modelled from the spec: the `small_emoji` content tag ("integer pack
identifier + image-type flag"). Only `pack_id_sum` is read by the source;
`image_type` appears solely in commented-out code. -/
structure SmallEmojiMsg where
  pack_id_sum : Nat
  image_type : Nat
deriving DecidableEq

/-- Modelled from the spec: the poke description decoded from the embedded
sub-payload of a `common_elem` with `service_type == 2` (generated protobuf
class `MsgElemInfo_servtype2`, not part of this core's source). -/
structure MsgElemInfo_servtype2 where
  vaspoke_id : Nat
  poke_type : Nat
  vaspoke_name : String
  poke_strength : Nat
  double_hit : Bool
deriving DecidableEq

/-- Modelled from the spec: the face-index payload decoded from the embedded
sub-payload of a `common_elem` with `service_type == 33` (generated protobuf
class `MsgElemInfo_servtype33`, not part of this core's source). -/
structure MsgElemInfo_servtype33 where
  index : Nat
deriving DecidableEq

/-- Modelled from the spec: the embedded serialized sub-payload (`pb_elem`
bytes) of a `common_elem`. The generated protobuf deserializers are not part
of this core's source, so the byte string is represented by the two decoded
views the source extracts from it via `FromString`. -/
structure PbElem where
  servtype2 : MsgElemInfo_servtype2
  servtype33 : MsgElemInfo_servtype33
deriving DecidableEq

/-- Modelled from the spec: `MsgElemInfo_servtype2.FromString(pb_elem)`
deserializes the embedded bytes into the poke description. -/
def MsgElemInfo_servtype2.FromString (b : PbElem) : MsgElemInfo_servtype2 :=
  b.servtype2

/-- Modelled from the spec: `MsgElemInfo_servtype33.FromString(pb_elem)`
deserializes the embedded bytes into the face-index payload. -/
def MsgElemInfo_servtype33.FromString (b : PbElem) : MsgElemInfo_servtype33 :=
  b.servtype33

/-- Modelled from the spec: the `common_elem` content tag, "a `service_type`
discriminant plus an embedded serialized sub-payload". -/
structure CommonElem where
  service_type : Nat
  pb_elem : PbElem
deriving DecidableEq

/-- A content-element record (`cai.pb.im.msg.msg_body.Elem`). Each field is a
protobuf submessage, present iff `HasField` is true; the tags checked by
`parse_elements` are `src_msg`, `text`, `face`, `small_emoji`, `custom_face`,
`not_online_image` and `common_elem`. The bodies of `src_msg`, `custom_face`
and `not_online_image` are never read (their branches are `...` no-ops), so
they are modelled as `Option Unit`. -/
structure Elem where
  src_msg : Option Unit := none
  text : Option PlainText := none
  face : Option FaceMsg := none
  small_emoji : Option SmallEmojiMsg := none
  custom_face : Option Unit := none
  not_online_image : Option Unit := none
  common_elem : Option CommonElem := none
deriving DecidableEq

/-- Protobuf read access without a `HasField` guard: `elems[index].text`
returns the set submessage, or the default (empty) instance when the `text`
field is unset. -/
def Elem.text_get (e : Elem) : PlainText :=
  e.text.getD { str := "" }

/-- Modelled from the spec: the output element variants built by the parser
(classes `TextElement`, `FaceElement`, `SmallEmojiElement`, `PokeElement` of
`.models`, not part of this core's source). -/
inductive Element where
  | TextElement (text : String)
  | FaceElement (index : Nat)
  | SmallEmojiElement (pack_id : Nat) (caption_text : String)
  | PokeElement (poke_id : Nat) (display_name : String) (strength : Nat)
      (is_double_hit : Bool)
deriving DecidableEq

/-- Decoders.py lines 39-42: the `text` and `face` branches of one loop
iteration, each appending one element when its tag is set. -/
def emit_basic (e : Elem) (res : List Element) : List Element :=
  let res1 :=
    match e.text with
    | some t => res ++ [Element.TextElement t.str]
    | none => res
  match e.face with
  | some f => res1 ++ [Element.FaceElement f.index]
  | none => res1

/-- Decoders.py lines 66-89: the `common_elem` branch of one loop iteration.
`Sum.inl` is the `service_type == 2` poke override: the result list is
replaced by the single `PokeElement` and the loop `break`s; `Sum.inr` carries
the (possibly extended) accumulator for the loop to continue. -/
def common_step (e : Elem) (res : List Element) :
    Sum (List Element) (List Element) :=
  match e.common_elem with
  | none => Sum.inr res
  | some ce =>
    if ce.service_type = 2 then
      let poke := MsgElemInfo_servtype2.FromString ce.pb_elem
      Sum.inl [Element.PokeElement
        (if poke.vaspoke_id = 0xFFFFFFFF then poke.poke_type
         else poke.vaspoke_id)
        poke.vaspoke_name poke.poke_strength poke.double_hit]
    else if ce.service_type = 33 then
      let info := MsgElemInfo_servtype33.FromString ce.pb_elem
      Sum.inr (res ++ [Element.FaceElement info.index])
    else
      Sum.inr res

/-- Decoders.py lines 35-92: one iteration of the `while index < len(elems)`
loop, with `res` the accumulator. The `small_emoji` branch (lines 43-61) does
`index += 1` and reads `elems[index].text`: when the record is the last one
this raises `IndexError` (modelled `none`); otherwise the caption is the next
record's `text` payload (default-empty when unset) and the next record's own
tags are never inspected, because the trailing `index += 1` (line 92) moves
the cursor past it. The `common_elem` branch still inspects the *current*
record (the local `elem` is not rebound by `index += 1`). -/
def parseLoop : List Elem → List Element → Option (List Element)
  | [], res => some res
  | e :: rest, res =>
    let res2 := emit_basic e res
    match e.small_emoji with
    | some se =>
      match rest with
      | [] => none
      | nxt :: rest2 =>
        match common_step e (res2 ++
            [Element.SmallEmojiElement se.pack_id_sum nxt.text_get.str]) with
        | Sum.inl fin => some fin
        | Sum.inr res4 => parseLoop rest2 res4
    | none =>
      match common_step e res2 with
      | Sum.inl fin => some fin
      | Sum.inr res4 => parseLoop rest res4

/-- Decoders.py lines 32-93: `parse_elements`. `none` models the parse
aborting with an uncaught exception. -/
def parse_elements (elems : List Elem) : Option (List Element) :=
  parseLoop elems []

/-- Message header (`msg.head`): the fields read by this core. Accessed
without `HasField` guards, so modelled as a plain structure (protobuf default
instance when absent). -/
structure MsgHead where
  seq : Nat := 0
  time : Nat := 0
  from_uin : Nat := 0
  from_nick : String := ""
  to_uin : Nat := 0
  c2c_cmd : Nat := 0
deriving DecidableEq

/-- Content head (`msg.content_head`): only `auto_reply` is read, an integer
flag converted with Python `bool(...)`. -/
structure ContentHead where
  auto_reply : Nat := 0
deriving DecidableEq

/-- Rich text body (`msg.body.rich_text`) holding the content elements. -/
structure RichText where
  elems : List Elem := []
deriving DecidableEq

/-- Message body (`msg.body`); `rich_text` presence is `HasField`-checked. -/
structure MsgBody where
  rich_text : Option RichText := none
deriving DecidableEq

/-- Inbound message record (`cai.pb.msf.msg.comm.Msg`): the parts read by the
buddy-message decoders. `content_head` and `body` presence are
`HasField`-checked by the source. -/
structure Msg where
  head : MsgHead := {}
  content_head : Option ContentHead := none
  body : Option MsgBody := none
deriving DecidableEq

/-- Modelled from the spec: the `PrivateMessage` event variant (class of
`.models`, not part of this core's source), with the spec's field names. -/
structure PrivateMessage where
  sequence : Nat
  timestamp : Nat
  auto_reply : Bool
  from_uin : Nat
  from_nickname : String
  to_uin : Nat
  elements : List Element
deriving DecidableEq

/-- Modelled from the spec: the event type; `PrivateMessage` is the only
variant this core constructs. -/
inductive Event where
  | privateMessage (message : PrivateMessage)
deriving DecidableEq

/-- Decoders.py lines 126-160: `BuddyMessageDecoder.decode_normal_buddy`.
Returns `some none` for the silent "no event" outcome (a Python `return`
with no value), `some (some ev)` for a constructed event, and `none` when
`parse_elements` aborts (the exception propagates out of the decoder). The
structural checks mirror the source's short-circuit `or` chain: body,
rich_text, non-empty elems, content_head. -/
def BuddyMessageDecoder.decode_normal_buddy (message : Msg) :
    Option (Option Event) :=
  match message.body with
  | none => some none
  | some body =>
    match body.rich_text with
    | none => some none
    | some rt =>
      match rt.elems with
      | [] => some none
      | _ :: _ =>
        match message.content_head with
        | none => some none
        | some ch =>
          match parse_elements rt.elems with
          | none => none
          | some els =>
            some (some (Event.privateMessage
              { sequence := message.head.seq
                timestamp := message.head.time
                auto_reply := ch.auto_reply != 0
                from_uin := message.head.from_uin
                from_nickname := message.head.from_nick
                to_uin := message.head.to_uin
                elements := els }))

/-- Decoders.py lines 105-115: the `sub_decoders` mapping of
`BuddyMessageDecoder.decode` (a dict literal; the commented-out entries are
absent). `Dict.get` with default `None` is modelled by `Option`. -/
def BuddyMessageDecoder.sub_decoders (c2c_cmd : Nat) :
    Option (Msg → Option (Option Event)) :=
  if c2c_cmd = 11 then some decode_normal_buddy
  else if c2c_cmd = 175 then some decode_normal_buddy
  else none

/-- Decoders.py lines 118-121: the diagnostic debug trace emitted on a
sub-command lookup miss. -/
def debug_trace (c2c_cmd : Nat) : String :=
  "MessageSvc.PbGetMsg: BuddyMessageDecoder cannot " ++
    "decode message with c2c_cmd " ++ toString c2c_cmd

/-- Decoders.py lines 97-123: `BuddyMessageDecoder.decode`. The second
component collects the debug traces emitted by the call (`logger.debug`);
the first is the returned value, `none` again standing for a propagated
exception. -/
def BuddyMessageDecoder.decode (message : Msg) :
    Option (Option Event) × List String :=
  match sub_decoders message.head.c2c_cmd with
  | none => (some none, [debug_trace message.head.c2c_cmd])
  | some Decoder => (Decoder message, [])

/-- Decoders.py lines 163-201: the top-level `MESSAGE_DECODERS` dict; every
mapped key routes to `BuddyMessageDecoder.decode` (all other entries are
commented out). -/
def MESSAGE_DECODERS (msg_type : Nat) :
    Option (Msg → Option (Option Event) × List String) :=
  if msg_type = 9 ∨ msg_type = 10 ∨ msg_type = 31 ∨ msg_type = 79 ∨
      msg_type = 97 ∨ msg_type = 120 ∨ msg_type = 132 ∨ msg_type = 133 ∨
      msg_type = 166 ∨ msg_type = 167 then
    some BuddyMessageDecoder.decode
  else
    none

/-- Recognizer for the `PokeElement` variant, used to state that a parse
result contains no poke element. -/
def Element.is_poke : Element → Bool
  | Element.PokeElement _ _ _ _ => true
  | _ => false

/-- One record does not trigger the poke override: its `common_elem` tag, if
set, does not carry `service_type == 2`. -/
def elem_no_poke (e : Elem) : Bool :=
  match e.common_elem with
  | some ce => ce.service_type != 2
  | none => true

/-- No record of the sequence triggers the poke override. -/
def no_poke_override (elems : List Elem) : Bool :=
  elems.all elem_no_poke

/-- Test fixture: a record carrying only the `text` tag. -/
def textRec (s : String) : Elem :=
  { text := some { str := s } }

/-- Test fixture: a record carrying only the `face` tag. -/
def faceRec (i : Nat) : Elem :=
  { face := some { index := i } }

/-- Test fixture: a record carrying only the `small_emoji` tag. -/
def smallRec (p : Nat) : Elem :=
  { small_emoji := some { pack_id_sum := p, image_type := 0 } }

/-- Test fixture: a record carrying only the `common_elem` tag. -/
def commonRec (st : Nat) (b : PbElem) : Elem :=
  { common_elem := some { service_type := st, pb_elem := b } }

/-- Test fixture: the spec's poke payload with the sentinel `vaspoke_id`
(`vaspoke_id=0xFFFFFFFF, poke_type=5, vaspoke_name="Poke", poke_strength=1,
double_hit=false`). -/
def pbPoke5 : PbElem :=
  { servtype2 :=
      { vaspoke_id := 0xFFFFFFFF, poke_type := 5, vaspoke_name := "Poke",
        poke_strength := 1, double_hit := false },
    servtype33 := { index := 0 } }

/-- Test fixture: the spec's non-sentinel poke payload (`vaspoke_id=99`). -/
def pbPoke99 : PbElem :=
  { servtype2 :=
      { vaspoke_id := 99, poke_type := 5, vaspoke_name := "P",
        poke_strength := 3, double_hit := true },
    servtype33 := { index := 0 } }

/-- Test fixture: an embedded payload whose servtype-33 view carries face
index 9. -/
def pb33_9 : PbElem :=
  { servtype2 :=
      { vaspoke_id := 0, poke_type := 0, vaspoke_name := "",
        poke_strength := 0, double_hit := false },
    servtype33 := { index := 9 } }

/-- Test fixture: a structurally complete message whose single content
element is a trailing `small_emoji` record, so the element parse aborts. -/
def c3_bad_msg : Msg :=
  { content_head := some {},
    body := some { rich_text := some { elems := [smallRec 1] } } }

/-- Test fixture: a structurally complete message with one text element. -/
def c3_good_msg : Msg :=
  { head :=
      { seq := 12, time := 34, from_uin := 56, from_nick := "nick",
        to_uin := 78, c2c_cmd := 11 },
    content_head := some { auto_reply := 1 },
    body := some { rich_text := some { elems := [textRec "hi"] } } }

/-- Test fixture: a message whose sub-command 99 has no sub-decoder entry. -/
def c8_msg : Msg :=
  { head := { c2c_cmd := 99 } }

/-- Test fixture: a record with both the `text` tag and a `common_elem` tag
of unrecognized service type 7. -/
def c10_rec : Elem :=
  { text := some { str := "a" },
    common_elem := some { service_type := 7, pb_elem := pbPoke5 } }

/-- Test fixture: a record with all four recognized tags set (`text`, `face`,
`small_emoji`, `common_elem` with service type 33). -/
def c10_full : Elem :=
  { text := some { str := "a" }, face := some { index := 1 },
    small_emoji := some { pack_id_sum := 8, image_type := 0 },
    common_elem := some { service_type := 33, pb_elem := pb33_9 } }

/-- Helper: the `text`/`face` branches only ever append to the accumulator. -/
theorem emit_basic_eq_append (e : Elem) (res : List Element) :
    ∃ t, emit_basic e res = res ++ t := by
  cases ht : e.text with
  | none =>
    cases hf : e.face with
    | none => exact ⟨[], by simp [emit_basic, ht, hf]⟩
    | some f => exact ⟨[Element.FaceElement f.index], by simp [emit_basic, ht, hf]⟩
  | some t =>
    cases hf : e.face with
    | none => exact ⟨[Element.TextElement t.str], by simp [emit_basic, ht, hf]⟩
    | some f =>
      exact ⟨[Element.TextElement t.str, Element.FaceElement f.index],
        by simp [emit_basic, ht, hf]⟩

/-- Helper: on a record that does not trigger the poke override, the
`common_elem` branch only ever appends to the accumulator and never breaks. -/
theorem common_step_no_poke (e : Elem) (res : List Element)
    (h : elem_no_poke e = true) :
    ∃ t, common_step e res = Sum.inr (res ++ t) := by
  cases hc : e.common_elem with
  | none => exact ⟨[], by simp [common_step, hc]⟩
  | some ce =>
    have h2 : ce.service_type ≠ 2 := by simpa [elem_no_poke, hc] using h
    by_cases h33 : ce.service_type = 33
    · exact ⟨[Element.FaceElement (MsgElemInfo_servtype33.FromString ce.pb_elem).index],
        by simp [common_step, hc, h2, h33]⟩
    · exact ⟨[], by simp [common_step, hc, h2, h33]⟩

/-- Helper: unfold `no_poke_override` over a cons cell. -/
theorem no_poke_override_cons (e : Elem) (rest : List Elem)
    (h : no_poke_override (e :: rest) = true) :
    elem_no_poke e = true ∧ no_poke_override rest = true := by
  simpa [no_poke_override, List.all_cons, Bool.and_eq_true] using h

/-- Helper: whenever the scan completes on a sequence with no poke override,
the final list extends the incoming accumulator, i.e. elements are only ever
appended in scan order. -/
theorem parseLoop_prefix_aux : ∀ (elems : List Elem) (res out : List Element),
    no_poke_override elems = true → parseLoop elems res = some out →
    res <+: out
  | [], res, out, _, h => by
    simp only [parseLoop, Option.some.injEq] at h
    exact h ▸ List.prefix_rfl
  | e :: rest, res, out, hnp, h => by
    obtain ⟨hne, hnrest⟩ := no_poke_override_cons e rest hnp
    obtain ⟨t0, ht0⟩ := emit_basic_eq_append e res
    cases hse : e.small_emoji with
    | none =>
      obtain ⟨t1, hcs⟩ := common_step_no_poke e (emit_basic e res) hne
      simp only [parseLoop, hse, hcs] at h
      have ih := parseLoop_prefix_aux rest (emit_basic e res ++ t1) out hnrest h
      have hpre : res <+: emit_basic e res ++ t1 := by
        rw [ht0, List.append_assoc]
        exact List.prefix_append _ _
      exact hpre.trans ih
    | some se =>
      cases rest with
      | nil =>
        simp only [parseLoop, hse] at h
        exact Option.noConfusion h
      | cons nxt rest2 =>
        obtain ⟨hne2, hnrest2⟩ := no_poke_override_cons nxt rest2 hnrest
        obtain ⟨t1, hcs⟩ := common_step_no_poke e
          (emit_basic e res ++
            [Element.SmallEmojiElement se.pack_id_sum nxt.text_get.str]) hne
        simp only [parseLoop, hse, hcs] at h
        have ih := parseLoop_prefix_aux rest2 _ out hnrest2 h
        have hpre : res <+: emit_basic e res ++
            [Element.SmallEmojiElement se.pack_id_sum nxt.text_get.str] ++ t1 := by
          rw [ht0, List.append_assoc, List.append_assoc]
          exact List.prefix_append _ _
        exact hpre.trans ih

/-- C1 (amended): when the forward scan visits a record whose `common_elem`
carries `service_type == 2` — i.e. the record is not consumed as the caption
slot of an immediately preceding `small_emoji` record, and is not itself a
trailing `small_emoji` record (which aborts before the `common_elem` branch
runs) — the parser discards the whole accumulator, returns exactly the one
`PokeElement` built from the embedded poke sub-payload, and examines no
further record: the result does not depend on `res` or on `rest`. -/
theorem poke_override_replaces_and_stops (e : Elem) (ce : CommonElem)
    (rest : List Elem) (res : List Element)
    (h1 : e.common_elem = some ce) (h2 : ce.service_type = 2)
    (h3 : e.small_emoji = none ∨ rest ≠ []) :
    parseLoop (e :: rest) res =
      some [Element.PokeElement
        (if (MsgElemInfo_servtype2.FromString ce.pb_elem).vaspoke_id = 0xFFFFFFFF
         then (MsgElemInfo_servtype2.FromString ce.pb_elem).poke_type
         else (MsgElemInfo_servtype2.FromString ce.pb_elem).vaspoke_id)
        (MsgElemInfo_servtype2.FromString ce.pb_elem).vaspoke_name
        (MsgElemInfo_servtype2.FromString ce.pb_elem).poke_strength
        (MsgElemInfo_servtype2.FromString ce.pb_elem).double_hit] := by
  cases hse : e.small_emoji with
  | none => simp [parseLoop, hse, common_step, h1, h2]
  | some se =>
    cases rest with
    | nil =>
      rcases h3 with h | h
      · rw [hse] at h
        exact Option.noConfusion h
      · exact absurd rfl h
    | cons nxt rest2 => simp [parseLoop, hse, common_step, h1, h2]

/-- C1 witness: the spec's own example `[text("a"), common_elem(2, P)]` with
the sentinel payload yields exactly `[PokeElement(5, "Poke", 1, false)]`,
discarding the already-accumulated `TextElement("a")`. -/
theorem poke_override_replaces_and_stops_witness :
    parseLoop [({ common_elem := some { service_type := 2, pb_elem := pbPoke5 } } : Elem)]
      [Element.TextElement "a"] =
      some [Element.PokeElement 5 "Poke" 1 false] := by
  have h := poke_override_replaces_and_stops
    { common_elem := some { service_type := 2, pb_elem := pbPoke5 } }
    { service_type := 2, pb_elem := pbPoke5 } [] [Element.TextElement "a"]
    rfl rfl (Or.inl rfl)
  exact h.trans (by rfl)

/-- C1 counterexample: the claim quantifies over every sequence *containing*
a servtype-2 `common_elem` record, but such a record that sits in the caption
slot of an immediately preceding `small_emoji` record is skipped without its
`common_elem` branch ever running: the result keeps the small-emoji element
and contains no `PokeElement` at all. -/
theorem poke_override_skipped_as_caption_cex :
    parse_elements [smallRec 42,
      { text := some { str := "x" },
        common_elem := some { service_type := 2, pb_elem := pbPoke5 } }] =
      some [Element.SmallEmojiElement 42 "x"] ∧
    ({ text := some { str := "x" },
       common_elem := some { service_type := 2, pb_elem := pbPoke5 } } : Elem).common_elem =
      some { service_type := 2, pb_elem := pbPoke5 } ∧
    List.countP Element.is_poke [Element.SmallEmojiElement 42 "x"] = 0 :=
  ⟨rfl, rfl, rfl⟩

/-- C2: for every embedded poke sub-payload decoded from a servtype-2
`common_elem`, the identifier of the resulting `PokeElement` is `poke_type`
exactly when `vaspoke_id` is the sentinel `0xFFFFFFFF`, and `vaspoke_id` for
every other value. -/
theorem poke_identifier_selection (b : PbElem) (rest : List Elem)
    (res : List Element) :
    ((MsgElemInfo_servtype2.FromString b).vaspoke_id = 0xFFFFFFFF →
      parseLoop (({ common_elem := some { service_type := 2, pb_elem := b } } : Elem) :: rest) res =
        some [Element.PokeElement (MsgElemInfo_servtype2.FromString b).poke_type
          (MsgElemInfo_servtype2.FromString b).vaspoke_name
          (MsgElemInfo_servtype2.FromString b).poke_strength
          (MsgElemInfo_servtype2.FromString b).double_hit]) ∧
    ((MsgElemInfo_servtype2.FromString b).vaspoke_id ≠ 0xFFFFFFFF →
      parseLoop (({ common_elem := some { service_type := 2, pb_elem := b } } : Elem) :: rest) res =
        some [Element.PokeElement (MsgElemInfo_servtype2.FromString b).vaspoke_id
          (MsgElemInfo_servtype2.FromString b).vaspoke_name
          (MsgElemInfo_servtype2.FromString b).poke_strength
          (MsgElemInfo_servtype2.FromString b).double_hit]) := by
  have hb : MsgElemInfo_servtype2.FromString b = b.servtype2 := rfl
  constructor <;> intro h <;> rw [hb] at h <;>
    simp [parseLoop, emit_basic, common_step, MsgElemInfo_servtype2.FromString, h]

/-- C2 witness: the non-sentinel payload `vaspoke_id=99` yields identifier
99 (not `poke_type=5`), and the sentinel payload yields `poke_type=5`. -/
theorem poke_identifier_selection_witness :
    parseLoop [({ common_elem := some { service_type := 2, pb_elem := pbPoke99 } } : Elem)] [] =
      some [Element.PokeElement 99 "P" 3 true] ∧
    parseLoop [({ common_elem := some { service_type := 2, pb_elem := pbPoke5 } } : Elem)] [] =
      some [Element.PokeElement 5 "Poke" 1 false] := by
  constructor
  · exact (poke_identifier_selection pbPoke99 [] []).2 (by decide)
  · exact (poke_identifier_selection pbPoke5 [] []).1 (by rfl)

/-- C4: a record tagged `small_emoji` whose immediate successor carries the
`text` tag is a two-slot construct: the parser emits exactly one
`SmallEmojiElement` combining the pack identifier of the first record with
the text payload of the second, the scan resumes after the second slot, and
the second record contributes nothing else (in particular no `TextElement`). -/
theorem small_emoji_lookahead (e nxt : Elem) (se : SmallEmojiMsg)
    (t : PlainText) (rest : List Elem) (res : List Element)
    (ht : e.text = none) (hf : e.face = none) (hc : e.common_elem = none)
    (hse : e.small_emoji = some se) (hnt : nxt.text = some t) :
    parseLoop (e :: nxt :: rest) res =
      parseLoop rest (res ++ [Element.SmallEmojiElement se.pack_id_sum t.str]) := by
  simp [parseLoop, emit_basic, common_step, Elem.text_get, ht, hf, hc, hse, hnt]

/-- C4 witness: the spec's example `[small_emoji(42), text("caption")]`
yields exactly `[SmallEmojiElement(42, "caption")]`. -/
theorem small_emoji_lookahead_witness :
    parse_elements [smallRec 42, textRec "caption"] =
      some [Element.SmallEmojiElement 42 "caption"] := by
  have h := small_emoji_lookahead (smallRec 42) (textRec "caption")
    { pack_id_sum := 42, image_type := 0 } { str := "caption" } [] []
    rfl rfl rfl rfl rfl
  exact h.trans (by rfl)

/-- C5 (amended): when the scan actually reaches a record carrying the
`small_emoji` tag with no record after it, the whole parse aborts with an
out-of-bounds access (no element list is returned); however a trailing
`small_emoji` record that the scan never reaches — because an earlier
servtype-2 `common_elem` terminated the scan, or because the record was
consumed as a preceding `small_emoji`'s caption slot — does not abort. -/
theorem trailing_small_emoji_abort (e : Elem) (res : List Element)
    (h : e.small_emoji.isSome) :
    parseLoop [e] res = none ∧ parse_elements [e] = none := by
  obtain ⟨se, hse⟩ := Option.isSome_iff_exists.mp h
  constructor <;> simp [parse_elements, parseLoop, hse]

/-- C5 witness: the singleton `[small_emoji(1)]` aborts the parse even with a
non-empty accumulator. -/
theorem trailing_small_emoji_abort_witness :
    parseLoop [smallRec 1] [Element.TextElement "z"] = none :=
  (trailing_small_emoji_abort (smallRec 1) [Element.TextElement "z"] rfl).1

/-- C5 counterexample: the claim quantifies over every sequence whose final
record carries the `small_emoji` tag, but the poke override of an earlier
record terminates the scan before the trailing `small_emoji` is reached: the
parse completes and returns an element list instead of aborting. -/
theorem trailing_small_emoji_skipped_cex :
    parse_elements [commonRec 2 pbPoke5, smallRec 1] =
      some [Element.PokeElement 5 "Poke" 1 false] ∧
    (smallRec 1).small_emoji.isSome = true :=
  ⟨rfl, rfl⟩

/-- C6 (amended): a `small_emoji` record followed by a record with no `text`
tag does NOT abort the parse: reading the unset `text` field of the follower
yields the protobuf default (empty) payload, so the parser emits
`SmallEmojiElement(pack_id, "")`, consumes both slots (the follower's own
tags are never inspected), and the scan continues. -/
theorem small_emoji_default_caption (e nxt : Elem) (se : SmallEmojiMsg)
    (rest : List Elem) (res : List Element)
    (ht : e.text = none) (hf : e.face = none) (hc : e.common_elem = none)
    (hse : e.small_emoji = some se) (hnt : nxt.text = none) :
    parseLoop (e :: nxt :: rest) res =
      parseLoop rest (res ++ [Element.SmallEmojiElement se.pack_id_sum ""]) := by
  simp [parseLoop, emit_basic, common_step, Elem.text_get, ht, hf, hc, hse, hnt]

/-- C6 witness: `[small_emoji(9), face(4)]` completes with the empty caption
and the follower's `face` tag is never decoded. -/
theorem small_emoji_default_caption_witness :
    parse_elements [smallRec 9, faceRec 4] =
      some [Element.SmallEmojiElement 9 ""] := by
  have h := small_emoji_default_caption (smallRec 9) (faceRec 4)
    { pack_id_sum := 9, image_type := 0 } [] [] rfl rfl rfl rfl rfl
  exact h.trans (by rfl)

/-- C6 counterexample: for `[small_emoji(7), face(3)]` — a `small_emoji`
record followed by a record with no `text` tag — the parser does not abort:
it returns `[SmallEmojiElement(7, "")]`, contradicting the claimed boundary
violation. -/
theorem small_emoji_nontext_follower_cex :
    parse_elements [smallRec 7, faceRec 3] =
      some [Element.SmallEmojiElement 7 ""] ∧
    (smallRec 7).small_emoji.isSome = true ∧
    (faceRec 3).text = none :=
  ⟨rfl, rfl, rfl⟩

/-- C7: a `common_elem` record with `service_type == 33` emits one
`FaceElement` carrying the face index decoded from the embedded sub-payload
(the same element shape as the plain `face` branch), and a `common_elem`
record with any service type other than 2 and 33 emits no element, the scan
continuing with the subsequent records in both cases. -/
theorem common_elem_servtype33_unknown (e : Elem) (ce : CommonElem)
    (rest : List Elem) (res : List Element)
    (ht : e.text = none) (hf : e.face = none) (hse : e.small_emoji = none)
    (hc : e.common_elem = some ce) :
    (ce.service_type = 33 →
      parseLoop (e :: rest) res =
        parseLoop rest (res ++
          [Element.FaceElement (MsgElemInfo_servtype33.FromString ce.pb_elem).index])) ∧
    (ce.service_type ≠ 2 → ce.service_type ≠ 33 →
      parseLoop (e :: rest) res = parseLoop rest res) := by
  constructor
  · intro h33
    simp [parseLoop, emit_basic, common_step, ht, hf, hse, hc, h33]
  · intro h2 h33
    simp [parseLoop, emit_basic, common_step, ht, hf, hse, hc, h2, h33]

/-- C7 witness: `[common_elem(33, index=9), face(3)]` yields
`[FaceElement(9), FaceElement(3)]`, and the unknown service type 7 yields no
element for its slot while the scan continues to the following `face`. -/
theorem common_elem_servtype33_unknown_witness :
    parse_elements [commonRec 33 pb33_9, faceRec 3] =
      some [Element.FaceElement 9, Element.FaceElement 3] ∧
    parse_elements [commonRec 7 pb33_9, faceRec 3] =
      some [Element.FaceElement 3] := by
  constructor
  · have h := (common_elem_servtype33_unknown (commonRec 33 pb33_9)
      { service_type := 33, pb_elem := pb33_9 } [faceRec 3] []
      rfl rfl rfl rfl).1 rfl
    exact h.trans (by rfl)
  · have h := (common_elem_servtype33_unknown (commonRec 7 pb33_9)
      { service_type := 7, pb_elem := pb33_9 } [faceRec 3] []
      rfl rfl rfl rfl).2 (by decide) (by decide)
    exact h.trans (by rfl)

/-- C3 (amended): the normal-buddy decoder silently returns no event
whenever the message body, the rich-text block or the content head is absent
or the content-element sequence is empty; when the structural preconditions
hold AND the element parse completes without aborting, it returns a
`PrivateMessage` whose sequence, timestamp, auto-reply flag, from-uin,
from-nickname and to-uin fields are copied from the message header and whose
element list is the element parse of the content-element sequence. (When the
element parse aborts, the exception propagates and no event is returned, so
the original "if and only if" fails.) -/
theorem decode_normal_buddy_spec (m : Msg) :
    (m.body = none → BuddyMessageDecoder.decode_normal_buddy m = some none) ∧
    (∀ b, m.body = some b → b.rich_text = none →
      BuddyMessageDecoder.decode_normal_buddy m = some none) ∧
    (∀ b rt, m.body = some b → b.rich_text = some rt → rt.elems = [] →
      BuddyMessageDecoder.decode_normal_buddy m = some none) ∧
    (m.content_head = none →
      BuddyMessageDecoder.decode_normal_buddy m = some none) ∧
    (∀ b rt ch els, m.body = some b → b.rich_text = some rt →
      rt.elems ≠ [] → m.content_head = some ch →
      parse_elements rt.elems = some els →
      BuddyMessageDecoder.decode_normal_buddy m =
        some (some (Event.privateMessage
          { sequence := m.head.seq, timestamp := m.head.time,
            auto_reply := ch.auto_reply != 0, from_uin := m.head.from_uin,
            from_nickname := m.head.from_nick, to_uin := m.head.to_uin,
            elements := els }))) := by
  refine ⟨?_, ?_, ?_, ?_, ?_⟩
  · intro h
    simp [BuddyMessageDecoder.decode_normal_buddy, h]
  · intro b hb hr
    simp [BuddyMessageDecoder.decode_normal_buddy, hb, hr]
  · intro b rt hb hr he
    simp [BuddyMessageDecoder.decode_normal_buddy, hb, hr, he]
  · intro h
    cases hb : m.body with
    | none => simp [BuddyMessageDecoder.decode_normal_buddy, hb]
    | some b =>
      cases hr : b.rich_text with
      | none => simp [BuddyMessageDecoder.decode_normal_buddy, hb, hr]
      | some rt =>
        cases he : rt.elems with
        | nil => simp [BuddyMessageDecoder.decode_normal_buddy, hb, hr, he]
        | cons x xs =>
          simp [BuddyMessageDecoder.decode_normal_buddy, hb, hr, he, h]
  · intro b rt ch els hb hr hne hch hpe
    cases he : rt.elems with
    | nil => exact absurd he hne
    | cons x xs =>
      rw [he] at hpe
      simp [BuddyMessageDecoder.decode_normal_buddy, hb, hr, he, hch, hpe]

/-- C3 witness: a structurally complete message with one text element
decodes to the `PrivateMessage` carrying the header fields and the parsed
element list. -/
theorem decode_normal_buddy_spec_witness :
    BuddyMessageDecoder.decode_normal_buddy c3_good_msg =
      some (some (Event.privateMessage
        { sequence := 12, timestamp := 34, auto_reply := true, from_uin := 56,
          from_nickname := "nick", to_uin := 78,
          elements := [Element.TextElement "hi"] })) := by
  have h := (decode_normal_buddy_spec c3_good_msg).2.2.2.2
    { rich_text := some { elems := [textRec "hi"] } } { elems := [textRec "hi"] }
    { auto_reply := 1 } [Element.TextElement "hi"] rfl rfl (by decide) rfl rfl
  exact h.trans (by rfl)

/-- C3 counterexample: a message whose content head is present and whose
content-element sequence is non-empty, yet no event is returned — the single
element is a trailing `small_emoji` record, so the element parse aborts and
the exception propagates out of the decoder (`none`, not `some none`),
refuting the claimed "if and only if". -/
theorem decode_normal_buddy_abort_cex :
    BuddyMessageDecoder.decode_normal_buddy c3_bad_msg = none ∧
    c3_bad_msg.content_head.isSome = true ∧
    c3_bad_msg.body = some { rich_text := some { elems := [smallRec 1] } } ∧
    ([smallRec 1] : List Elem) ≠ [] :=
  ⟨rfl, rfl, rfl, by decide⟩

/-- C8: for every message whose sub-command (`c2c_cmd`) has no entry in the
buddy family's sub-decoder mapping, `BuddyMessageDecoder.decode` returns no
event without raising and emits exactly one diagnostic trace; the mapped
sub-commands are exactly 11 and 175, both routed to the normal-buddy
decoder, and every mapped top-level command routes to the buddy family
entry point. -/
theorem buddy_decode_dispatch :
    (∀ m : Msg, BuddyMessageDecoder.sub_decoders m.head.c2c_cmd = none →
      BuddyMessageDecoder.decode m = (some none, [debug_trace m.head.c2c_cmd]) ∧
      (BuddyMessageDecoder.decode m).2.length = 1) ∧
    (∀ c : Nat, (BuddyMessageDecoder.sub_decoders c).isSome ↔ c = 11 ∨ c = 175) ∧
    BuddyMessageDecoder.sub_decoders 11 =
      some BuddyMessageDecoder.decode_normal_buddy ∧
    BuddyMessageDecoder.sub_decoders 175 =
      some BuddyMessageDecoder.decode_normal_buddy ∧
    (∀ k : Nat, (MESSAGE_DECODERS k).isSome →
      MESSAGE_DECODERS k = some BuddyMessageDecoder.decode) := by
  refine ⟨?_, ?_, rfl, rfl, ?_⟩
  · intro m h
    constructor
    · simp [BuddyMessageDecoder.decode, h]
    · simp [BuddyMessageDecoder.decode, h]
  · intro c
    by_cases h11 : c = 11
    · simp [BuddyMessageDecoder.sub_decoders, h11]
    · by_cases h175 : c = 175
      · simp [BuddyMessageDecoder.sub_decoders, h11, h175]
      · simp [BuddyMessageDecoder.sub_decoders, h11, h175]
  · intro k hk
    unfold MESSAGE_DECODERS at hk ⊢
    split at hk
    next hcond => rw [if_pos hcond]
    next hcond => exact absurd hk (by simp)

/-- C8 witness: the unmapped sub-command 99 yields no event and exactly the
one diagnostic trace. -/
theorem buddy_decode_dispatch_witness :
    BuddyMessageDecoder.decode c8_msg = (some none, [debug_trace 99]) :=
  (buddy_decode_dispatch.1 c8_msg rfl).1

/-- C9: on any sequence with no servtype-2 `common_elem` override, the
scan only ever appends to the accumulated list, so the elements of a
completed parse appear in the order their source records were encountered;
in particular `[text("hi"), face(7)]` yields exactly
`[TextElement("hi"), FaceElement(7)]` in that order. -/
theorem element_order_preserved :
    (∀ (elems : List Elem) (res out : List Element),
      no_poke_override elems = true → parseLoop elems res = some out →
      res <+: out) ∧
    parse_elements [textRec "hi", faceRec 7] =
      some [Element.TextElement "hi", Element.FaceElement 7] :=
  ⟨parseLoop_prefix_aux, rfl⟩

/-- C9 witness: the already-emitted prefix survives the remainder of an
override-free scan. -/
theorem element_order_preserved_witness :
    [Element.TextElement "a"] <+:
      [Element.TextElement "a", Element.FaceElement 2] :=
  element_order_preserved.1 [faceRec 2] [Element.TextElement "a"]
    [Element.TextElement "a", Element.FaceElement 2] (by decide) (by rfl)

/-- C10 (amended): the recognized tags are not mutually exclusive: a single
record's set tags are all processed, in the fixed inspection order `text`,
`face`, `small_emoji`, `common_elem`, each branch emitting what it emits —
one element for `text`, `face` and `small_emoji` (the latter consuming the
next slot as caption), one `FaceElement` for `common_elem` with service type
33, a list-replacing `PokeElement` for service type 2, and no element for
any other service type. With all four tags set and service type 33, the four
elements appear in exactly the inspection order. -/
theorem multi_tag_fixed_order (e nxt : Elem) (t : PlainText) (f : FaceMsg)
    (se : SmallEmojiMsg) (ce : CommonElem) (ct : PlainText)
    (rest : List Elem) (res : List Element)
    (ht : e.text = some t) (hf : e.face = some f)
    (hse : e.small_emoji = some se) (hc : e.common_elem = some ce)
    (h33 : ce.service_type = 33) (hnt : nxt.text = some ct) :
    parseLoop (e :: nxt :: rest) res =
      parseLoop rest (res ++
        [Element.TextElement t.str, Element.FaceElement f.index,
         Element.SmallEmojiElement se.pack_id_sum ct.str,
         Element.FaceElement (MsgElemInfo_servtype33.FromString ce.pb_elem).index]) := by
  simp [parseLoop, emit_basic, common_step, Elem.text_get,
    ht, hf, hse, hc, h33, hnt]

/-- C10 witness: a record with all four recognized tags set followed by a
text record yields the four elements in inspection order. -/
theorem multi_tag_fixed_order_witness :
    parse_elements [c10_full, textRec "cap"] =
      some [Element.TextElement "a", Element.FaceElement 1,
        Element.SmallEmojiElement 8 "cap", Element.FaceElement 9] := by
  have h := multi_tag_fixed_order c10_full (textRec "cap")
    { str := "a" } { index := 1 } { pack_id_sum := 8, image_type := 0 }
    { service_type := 33, pb_elem := pb33_9 } { str := "cap" } [] []
    rfl rfl rfl rfl rfl rfl
  exact h.trans (by rfl)

/-- C10 counterexample: a record with both the `text` tag and a `common_elem`
tag of unrecognized service type 7 has two recognized tags set but yields
only one element — the `common_elem` branch emits nothing for service types
other than 2 and 33, refuting "one element per set tag". -/
theorem multi_tag_partial_emission_cex :
    parse_elements [c10_rec] = some [Element.TextElement "a"] ∧
    c10_rec.text.isSome = true ∧
    c10_rec.common_elem.isSome = true ∧
    ([Element.TextElement "a"] : List Element).length = 1 :=
  ⟨rfl, rfl, rfl, rfl⟩

end Cai
